import Mathlib

/-!
Verification model of the TODO CRUD service (Flask + psycopg2), files
src/app/app.py and src/app/db.py.

Modeling conventions:
* Request bodies, as returned by `request.get_json()`, are modeled by the
  inductive `Json`.  An unparseable / absent body is `none : Option Json`:
  Flask's `get_json()` then raises a BadRequest-style HTTPException which the
  framework renders as a 4xx response before any handler code runs
  (`HResult.badRequest400`).
* Python dynamic-typing behavior that the handlers rely on is modeled
  faithfully: truthiness (`not data`), the `in` operator (key membership for
  dicts, substring for strings, element equality for lists, `TypeError` for
  `None`/bool/number), subscripting, and `dict.get` with a default.
* The connection pool and the database are modeled by an event trace
  (`Ev`: acquire / exec / commit / rollback / release) plus an explicit
  database state (`DbState`).  A handler's working copy of the rows is only
  published into the returned state on `commit`; `rollback` (or returning
  without commit) discards it.
* Infrastructure failures (pool exhaustion, connection drop, query or commit
  failure) are injected through a `Faults` record: one flag per fallible
  pool / database call of a handler, in program order (`acq` = acquisition,
  `s1` = first statement, `s2` = second statement, `cm` = commit).
  Additionally, every statement that touches the `todos` table fails
  deterministically when the table does not exist (the post-state of a failed
  schema initialization).  SQL constraint checking and value coercion inside
  the database engine are not derived from row values; such failures are
  covered by the same fault flags.
* `release b` records the handler giving the connection back to the pool;
  the flag `b` is true when the connection still has an open (or aborted)
  transaction at that point — psycopg2's `putconn` then resets it internally.
* Timestamps (`CURRENT_TIMESTAMP`) are naturals, frozen to `DbState.now` for
  the duration of one request.
* An exception escaping the handler is `HResult.uncaught e`; Flask's WSGI
  layer renders it as a generic (non-JSON) 500 page (`boundaryStatus`).
-/

namespace TodoApi

/-- JSON values, as produced by `request.get_json()` (floats not needed by any
claim and omitted). -/
inductive Json where
  | null
  | bool (b : Bool)
  | num (n : Int)
  | str (s : String)
  | arr (elems : List Json)
  | obj (fields : List (String × Json))

/-- Python exception classes that the handlers can raise or see. -/
inductive PyErr where
  | storage        -- psycopg2 OperationalError / ProgrammingError etc.
  | poolExhausted  -- psycopg2.pool.PoolError from getconn
  | attrError      -- AttributeError: NoneType has no attribute (db_pool is None)
  | typeError      -- TypeError from `in` / subscripting on a non-container
  | keyError       -- KeyError from dict subscripting
deriving DecidableEq

/-- Python truthiness of a JSON value (`not data`). -/
def Json.truthy : Json → Bool
  | .null => false
  | .bool b => b
  | .num n => !(n == 0)
  | .str s => !(s == "")
  | .arr elems => !elems.isEmpty
  | .obj fields => !fields.isEmpty

/-- Python `==` between a JSON value and a string (used by `in` on lists);
cross-type equality is `False`, never an error. -/
def Json.eqStr (j : Json) (k : String) : Bool :=
  match j with
  | .str s => s == k
  | _ => false

/-- One character list is a prefix of another. -/
def listStartsWith : List Char → List Char → Bool
  | [], _ => true
  | _ :: _, [] => false
  | a :: as, b :: bs => (a == b) && listStartsWith as bs

/-- A character list occurs contiguously inside another. -/
def listContainsSub (sub : List Char) : List Char → Bool
  | [] => sub.isEmpty
  | c :: rest => listStartsWith sub (c :: rest) || listContainsSub sub rest

/-- Python substring test `sub in s`. -/
def pyStrContains (s sub : String) : Bool :=
  listContainsSub sub.toList s.toList

/-- Python `key in data`: key membership for dicts, substring for strings,
element equality for lists; `TypeError` for `None`, booleans and numbers. -/
def Json.hasMember (key : String) : Json → Except PyErr Bool
  | .obj fields => .ok (fields.find? (fun p => p.1 == key)).isSome
  | .arr elems => .ok (elems.any (fun j => j.eqStr key))
  | .str s => .ok (pyStrContains s key)
  | .null => .error .typeError
  | .bool _ => .error .typeError
  | .num _ => .error .typeError

/-- Python `data[key]` for a string key: dict lookup; `TypeError` on any
non-dict value (string/list indices must be integers; `None`/bool/number are
not subscriptable by a string). -/
def Json.subscript (key : String) : Json → Except PyErr Json
  | .obj fields =>
    match fields.find? (fun p => p.1 == key) with
    | some p => .ok p.2
    | none => .error .keyError
  | _ => .error .typeError

/-- Python `data.get(key, default)`: only dicts have `.get`; everything else
raises AttributeError. -/
def Json.pyGet (j : Json) (key : String) (dflt : Json) : Except PyErr Json :=
  match j with
  | .obj fields =>
    match fields.find? (fun p => p.1 == key) with
    | some p => .ok p.2
    | none => .ok dflt
  | _ => .error .attrError

/-- Key list of a JSON object (empty for non-objects). -/
def Json.keys : Json → List String
  | .obj fields => fields.map (fun p => p.1)
  | _ => []

/-- First value bound to a key in an association list of JSON object fields. -/
def jLookup (fields : List (String × Json)) (k : String) : Option Json :=
  (fields.find? (fun p => p.1 == k)).map (fun p => p.2)

/-- The SQL statements issued by app.py, used to label trace events. -/
inductive Stmt where
  | createTable   -- CREATE TABLE IF NOT EXISTS todos (...)
  | select1       -- SELECT 1
  | selectAllT    -- SELECT ... FROM todos ORDER BY id
  | insertT       -- INSERT INTO todos ... RETURNING ...
  | selectById    -- SELECT id, title, ... FROM todos WHERE id = %s
  | selectIdOnly  -- SELECT id FROM todos WHERE id = %s
  | updateT       -- UPDATE todos SET ... WHERE id = %s RETURNING ...
  | deleteT       -- DELETE FROM todos WHERE id = %s RETURNING id
deriving DecidableEq

/-- Pool / connection events of one request, in order. -/
inductive Ev where
  | acquire
  | exec (s : Stmt)
  | commit
  | rollback
  | release (txOpen : Bool)
deriving DecidableEq

/-- Fault injection for the fallible pool / database calls of one handler, in
program order.  `acq`: `db_pool.getconn()` raises (pool exhausted);
`s1` / `s2`: the handler's first / second `cur.execute` raises;
`cm`: `conn.commit()` raises. -/
structure Faults where
  acq : Bool
  s1 : Bool
  s2 : Bool
  cm : Bool

def noFaults : Faults := { acq := false, s1 := false, s2 := false, cm := false }
def faultAcq : Faults := { acq := true, s1 := false, s2 := false, cm := false }
def faultS1 : Faults := { acq := false, s1 := true, s2 := false, cm := false }
def faultCm : Faults := { acq := false, s1 := false, s2 := false, cm := true }

/-- A row of the `todos` table.  `title` and `completed` keep the Python value
that was bound into the statement (the engine's type coercion is not modeled;
see the module comment). -/
structure Todo where
  id : Nat
  title : Json
  completed : Json
  created_at : Nat
  updated_at : Nat

/-- Committed database state. -/
structure DbState where
  tableExists : Bool
  columns : List String
  rows : List Todo
  nextId : Nat
  now : Nat

def todosColumns : List String := ["id", "title", "completed", "created_at", "updated_at"]

/-- CREATE TABLE IF NOT EXISTS todos (...): no effect at all when the table is
already there, otherwise creates the empty table with its five columns. -/
def createTableIfNotExists (db : DbState) : DbState :=
  if db.tableExists then db
  else { db with tableExists := true, columns := todosColumns, rows := [], nextId := 1 }

/-- SELECT id, title, completed, created_at, updated_at FROM todos WHERE id = %s. -/
def sqlSelectById (i : Nat) (db : DbState) : Option Todo :=
  db.rows.find? (fun r => r.id == i)

/-- Insertion into an id-sorted list (for ORDER BY id). -/
def insertSorted (t : Todo) : List Todo → List Todo
  | [] => [t]
  | x :: xs => if t.id ≤ x.id then t :: x :: xs else x :: insertSorted t xs

/-- SELECT ... FROM todos ORDER BY id. -/
def sqlSelectAll (db : DbState) : List Todo :=
  db.rows.foldr insertSorted []

/-- INSERT INTO todos (title, completed) VALUES (%s, %s) RETURNING ...:
the server assigns the id and both timestamps. -/
def sqlInsert (titleV completedV : Json) (db : DbState) : Todo × DbState :=
  let t : Todo := { id := db.nextId, title := titleV, completed := completedV,
                    created_at := db.now, updated_at := db.now }
  (t, { db with rows := db.rows ++ [t], nextId := db.nextId + 1 })

/-- UPDATE todos SET [title = %s,][completed = %s,] updated_at = CURRENT_TIMESTAMP
WHERE id = %s RETURNING ...: exactly the supplied columns change, `updated_at`
unconditionally. -/
def sqlUpdateById (i : Nat) (newTitle newCompleted : Option Json) (db : DbState) :
    Option Todo × DbState :=
  match db.rows.find? (fun r => r.id == i) with
  | none => (none, db)
  | some t =>
    let t' : Todo := { t with title := newTitle.getD t.title,
                              completed := newCompleted.getD t.completed,
                              updated_at := db.now }
    (some t', { db with rows := db.rows.map (fun r => if r.id == i then t' else r) })

/-- DELETE FROM todos WHERE id = %s RETURNING id. -/
def sqlDeleteById (i : Nat) (db : DbState) : Option Nat × DbState :=
  match db.rows.find? (fun r => r.id == i) with
  | none => (none, db)
  | some t => (some t.id, { db with rows := db.rows.filter (fun r => !(r.id == i)) })

/-- What one request produces at the HTTP boundary. -/
inductive HResult where
  | resp (body : Json) (code : Nat)  -- `return jsonify(...), code` from the handler
  | empty204                         -- `return '', 204`
  | badRequest400                    -- get_json() raised; framework 4xx, handler body never ran
  | uncaught (e : PyErr)             -- a raw exception escaped the handler

/-- Status code actually sent on the wire (the framework turns an uncaught
exception into a generic 500). -/
def boundaryStatus : HResult → Nat
  | .resp _ c => c
  | .empty204 => 204
  | .badRequest400 => 400
  | .uncaught _ => 500

def isUncaught : HResult → Bool
  | .uncaught _ => true
  | _ => false

def isJsonResp : HResult → Bool
  | .resp _ _ => true
  | _ => false

/-- Result of one handler invocation: HTTP outcome, pool/connection event
trace, and the committed database state afterwards. -/
structure HOut where
  result : HResult
  events : List Ev
  db : DbState

def errJson (msg : String) : Json := .obj [("error", .str msg)]
def err500 : Json := errJson "Database error"
def notFoundJson : Json := errJson "Todo not found"
def titleReqJson : Json := errJson "Title is required"

/-- Serialization of a row by `jsonify` (timestamps rendered as numbers). -/
def todoJson (t : Todo) : Json :=
  .obj [("id", .num (Int.ofNat t.id)), ("title", t.title), ("completed", t.completed),
        ("created_at", .num (Int.ofNat t.created_at)),
        ("updated_at", .num (Int.ofNat t.updated_at))]

/-- `jsonify` of `cur.fetchone()`, which can be `None`. -/
def jsonifyOpt : Option Todo → Json
  | some t => todoJson t
  | none => .null

/-- The /health response body (app.py lines 205-211). -/
def healthBody (env : String) (dbHealthy : Bool) : Json :=
  .obj [("status", .str (if dbHealthy then "healthy" else "degraded")),
        ("environment", .str env),
        ("version", .str "2.0.0"),
        ("storage", .str "postgresql"),
        ("database", .str (if dbHealthy then "healthy" else "unhealthy"))]

/-- GET /health (app.py lines 172-211).  `db_healthy = False;
try: conn = get_db_conn(); SELECT 1; db_healthy = True; return_db_conn(conn)
except: log` — note that `return_db_conn` is on the success path only, not in
a `finally`: when `SELECT 1` raises after a successful `getconn`, the
connection is never given back. -/
def health (env : String) (poolUp : Bool) (ft : Faults) (db : DbState) : HOut :=
  if poolUp = false then
    { result := .resp (healthBody env false) 503, events := [], db := db }
  else if ft.acq then
    { result := .resp (healthBody env false) 503, events := [], db := db }
  else if ft.s1 then
    { result := .resp (healthBody env false) 503, events := [Ev.acquire], db := db }
  else
    { result := .resp (healthBody env true) 200,
      events := [Ev.acquire, Ev.exec .select1, Ev.release true], db := db }

/-- GET /api/todos (app.py lines 214-249).  `conn = get_db_conn()` sits before
the `try`, so its failure (pool absent / exhausted) escapes uncaught; inside
the `try` every failure becomes the JSON 500, and `finally` returns the
connection.  A read never commits, so a successful release hands back an open
transaction (reset by the pool). -/
def get_todos (poolUp : Bool) (ft : Faults) (db : DbState) : HOut :=
  if poolUp = false then { result := .uncaught .attrError, events := [], db := db }
  else if ft.acq then { result := .uncaught .poolExhausted, events := [], db := db }
  else if ft.s1 || !db.tableExists then
    { result := .resp err500 500, events := [Ev.acquire, Ev.release true], db := db }
  else
    { result := .resp (.arr ((sqlSelectAll db).map todoJson)) 200,
      events := [Ev.acquire, Ev.exec .selectAllT, Ev.release true], db := db }

/-- The guard `if not data or 'title' not in data` of create_todo (line 280);
`in` is only evaluated when `data` is truthy, and raises TypeError for truthy
non-containers (numbers, True). -/
def titleCheckFails (data : Json) : Except PyErr Bool :=
  if data.truthy = false then .ok true
  else
    match data.hasMember "title" with
    | .error e => .error e
    | .ok m => .ok (!m)

/-- Evaluation of the bound parameters `(data['title'], data.get('completed', False))`
(line 288); both are evaluated inside the `try`, before the INSERT runs. -/
def extractCreateParams (data : Json) : Except PyErr (Json × Json) :=
  match data.subscript "title" with
  | .error e => .error e
  | .ok t =>
    match data.pyGet "completed" (.bool false) with
    | .error e => .error e
    | .ok c => .ok (t, c)

/-- POST /api/todos (app.py lines 252-299).  Validation runs before any pool
use; `get_db_conn()` is before the `try`; inside the `try` any failure rolls
back and answers the JSON 500; `finally` returns the connection. -/
def create_todo (poolUp : Bool) (body : Option Json) (ft : Faults) (db : DbState) : HOut :=
  match body with
  | none => { result := .badRequest400, events := [], db := db }
  | some data =>
    match titleCheckFails data with
    | .error e => { result := .uncaught e, events := [], db := db }
    | .ok true => { result := .resp titleReqJson 400, events := [], db := db }
    | .ok false =>
      if poolUp = false then { result := .uncaught .attrError, events := [], db := db }
      else if ft.acq then { result := .uncaught .poolExhausted, events := [], db := db }
      else
        match extractCreateParams data with
        | .error _ =>
          { result := .resp err500 500,
            events := [Ev.acquire, Ev.rollback, Ev.release false], db := db }
        | .ok (titleV, completedV) =>
          if ft.s1 || !db.tableExists then
            { result := .resp err500 500,
              events := [Ev.acquire, Ev.rollback, Ev.release false], db := db }
          else
            if ft.cm then
              { result := .resp err500 500,
                events := [Ev.acquire, Ev.exec .insertT, Ev.rollback, Ev.release false],
                db := db }
            else
              { result := .resp (todoJson (sqlInsert titleV completedV db).1) 201,
                events := [Ev.acquire, Ev.exec .insertT, Ev.commit, Ev.release false],
                db := (sqlInsert titleV completedV db).2 }

/-- GET /api/todos/id (app.py lines 302-337). -/
def get_todo (poolUp : Bool) (todo_id : Nat) (ft : Faults) (db : DbState) : HOut :=
  if poolUp = false then { result := .uncaught .attrError, events := [], db := db }
  else if ft.acq then { result := .uncaught .poolExhausted, events := [], db := db }
  else if ft.s1 || !db.tableExists then
    { result := .resp err500 500, events := [Ev.acquire, Ev.release true], db := db }
  else
    match sqlSelectById todo_id db with
    | none =>
      { result := .resp notFoundJson 404,
        events := [Ev.acquire, Ev.exec .selectById, Ev.release true], db := db }
    | some t =>
      { result := .resp (todoJson t) 200,
        events := [Ev.acquire, Ev.exec .selectById, Ev.release true], db := db }

/-- The `updates`/`params` construction of update_todo (lines 383-393):
`'title' in data` (may raise), then `data['title']`, then the same for
`completed`.  Returns the new value for each column that is present. -/
def buildUpdates (data : Json) : Except PyErr (Option Json × Option Json) :=
  match data.hasMember "title" with
  | .error e => .error e
  | .ok hasT =>
    match (if hasT then (data.subscript "title").map some else .ok none) with
    | .error e => .error e
    | .ok newTitle =>
      match data.hasMember "completed" with
      | .error e => .error e
      | .ok hasC =>
        match (if hasC then (data.subscript "completed").map some else .ok none) with
        | .error e => .error e
        | .ok newCompleted => .ok (newTitle, newCompleted)

/-- PUT /api/todos/id (app.py lines 340-407).  get_json first (framework 4xx
when unparseable), then `get_db_conn()` before the `try`; inside: existence
check by `SELECT id`, early 404 return WITHOUT rollback (only `finally`
putconn), dynamic column list, UPDATE, commit.  Exceptions roll back and
answer the JSON 500. -/
def update_todo (poolUp : Bool) (todo_id : Nat) (body : Option Json) (ft : Faults)
    (db : DbState) : HOut :=
  match body with
  | none => { result := .badRequest400, events := [], db := db }
  | some data =>
    if poolUp = false then { result := .uncaught .attrError, events := [], db := db }
    else if ft.acq then { result := .uncaught .poolExhausted, events := [], db := db }
    else if ft.s1 || !db.tableExists then
      { result := .resp err500 500,
        events := [Ev.acquire, Ev.rollback, Ev.release false], db := db }
    else
      match sqlSelectById todo_id db with
      | none =>
        { result := .resp notFoundJson 404,
          events := [Ev.acquire, Ev.exec .selectIdOnly, Ev.release true], db := db }
      | some _ =>
        match buildUpdates data with
        | .error _ =>
          { result := .resp err500 500,
            events := [Ev.acquire, Ev.exec .selectIdOnly, Ev.rollback, Ev.release false],
            db := db }
        | .ok (newTitle, newCompleted) =>
          if ft.s2 then
            { result := .resp err500 500,
              events := [Ev.acquire, Ev.exec .selectIdOnly, Ev.rollback, Ev.release false],
              db := db }
          else
            if ft.cm then
              { result := .resp err500 500,
                events := [Ev.acquire, Ev.exec .selectIdOnly, Ev.exec .updateT,
                           Ev.rollback, Ev.release false],
                db := db }
            else
              { result := .resp (jsonifyOpt (sqlUpdateById todo_id newTitle newCompleted db).1) 200,
                events := [Ev.acquire, Ev.exec .selectIdOnly, Ev.exec .updateT,
                           Ev.commit, Ev.release false],
                db := (sqlUpdateById todo_id newTitle newCompleted db).2 }

/-- DELETE /api/todos/id (app.py lines 410-439).  One DELETE ... RETURNING id
decides existence; the 404 early return skips both commit and rollback (only
`finally` putconn); the uncommitted delete of nothing is discarded. -/
def delete_todo (poolUp : Bool) (todo_id : Nat) (ft : Faults) (db : DbState) : HOut :=
  if poolUp = false then { result := .uncaught .attrError, events := [], db := db }
  else if ft.acq then { result := .uncaught .poolExhausted, events := [], db := db }
  else if ft.s1 || !db.tableExists then
    { result := .resp err500 500,
      events := [Ev.acquire, Ev.rollback, Ev.release false], db := db }
  else
    match (sqlDeleteById todo_id db).1 with
    | none =>
      { result := .resp notFoundJson 404,
        events := [Ev.acquire, Ev.exec .deleteT, Ev.release true], db := db }
    | some _ =>
      if ft.cm then
        { result := .resp err500 500,
          events := [Ev.acquire, Ev.exec .deleteT, Ev.rollback, Ev.release false],
          db := db }
      else
        { result := .empty204,
          events := [Ev.acquire, Ev.exec .deleteT, Ev.commit, Ev.release false],
          db := (sqlDeleteById todo_id db).2 }

/-- Outcome of a startup-phase routine: raised-or-not, its trace, the state. -/
structure SchemaRun where
  result : Except PyErr Unit
  events : List Ev
  db : DbState

/-- init_schema (app.py lines 90-126): `conn = db_pool.getconn()` BEFORE the
try, then CREATE TABLE IF NOT EXISTS + commit inside try (rollback + re-raise
on failure), putconn in `finally` on every path that acquired. -/
def init_schema (ft : Faults) (db : DbState) : SchemaRun :=
  if ft.acq then { result := .error .poolExhausted, events := [], db := db }
  else if ft.s1 then
    { result := .error .storage,
      events := [Ev.acquire, Ev.rollback, Ev.release false], db := db }
  else if ft.cm then
    { result := .error .storage,
      events := [Ev.acquire, Ev.exec .createTable, Ev.rollback, Ev.release false], db := db }
  else
    { result := .ok (),
      events := [Ev.acquire, Ev.exec .createTable, Ev.commit, Ev.release false],
      db := createTableIfNotExists db }

/-- Process state after module import. -/
structure AppState where
  poolUp : Bool
  db : DbState

/-- Module-level startup (app.py lines 164-169): `init_db_pool()` inside
try/except whose handler only logs — the process keeps serving either way.
Inside init_db_pool (lines 73-87), `db_pool` is assigned before init_schema
runs, so a schema failure still leaves the pool up. -/
def startup (poolCreateFails : Bool) (ft : Faults) (db : DbState) : AppState :=
  if poolCreateFails then { poolUp := false, db := db }
  else { poolUp := true, db := (init_schema ft db).db }

/-- State of the database as seen by the db.py variant (its own `todos`
namespace, a table without updated_at). -/
structure Db2State where
  schemaNS : Bool
  tableExists : Bool
  columns : List String
  rows : List Todo

/-- Statements issued by db.py. -/
inductive Stmt2 where
  | createSchema   -- CREATE SCHEMA IF NOT EXISTS todos
  | setSearchPath  -- SET search_path TO todos
  | createTable2   -- CREATE TABLE IF NOT EXISTS todos.todos (...)
deriving DecidableEq

/-- Connection events of db.py's direct (non-pooled) connection. -/
inductive Ev2 where
  | connect
  | exec2 (s : Stmt2)
  | commit2
  | close
deriving DecidableEq

def isClose : Ev2 → Bool
  | .close => true
  | _ => false

structure Run2 where
  result : Except PyErr Unit
  events : List Ev2
  db : Db2State

def todos2Columns : List String := ["id", "title", "completed", "created_at"]

/-- CREATE SCHEMA IF NOT EXISTS todos. -/
def createSchemaNS (s : Db2State) : Db2State := { s with schemaNS := true }

/-- CREATE TABLE IF NOT EXISTS todos.todos (...): no effect when present. -/
def createTable2 (s : Db2State) : Db2State :=
  if s.tableExists then s
  else { s with tableExists := true, columns := todos2Columns, rows := [] }

/-- init_db (db.py lines 20-48): a direct connection (get_db_connection, which
also runs SET search_path — modeled as one fallible connect step), then
CREATE SCHEMA / SET search_path / CREATE TABLE / commit / close, all inside
one try whose except only logs and re-raises: on ANY failure after connecting,
the connection is neither closed nor rolled back. -/
def init_db (ft : Faults) (s : Db2State) : Run2 :=
  if ft.acq then { result := .error .storage, events := [], db := s }
  else if ft.s1 then
    { result := .error .storage, events := [Ev2.connect], db := s }
  else if ft.s2 then
    { result := .error .storage,
      events := [Ev2.connect, Ev2.exec2 .createSchema, Ev2.exec2 .setSearchPath], db := s }
  else if ft.cm then
    { result := .error .storage,
      events := [Ev2.connect, Ev2.exec2 .createSchema, Ev2.exec2 .setSearchPath,
                 Ev2.exec2 .createTable2], db := s }
  else
    { result := .ok (),
      events := [Ev2.connect, Ev2.exec2 .createSchema, Ev2.exec2 .setSearchPath,
                 Ev2.exec2 .createTable2, Ev2.commit2, Ev2.close],
      db := createTable2 (createSchemaNS s) }

/- Trace predicates used by the claims. -/

def isAcquire : Ev → Bool
  | .acquire => true
  | _ => false

def isRel : Ev → Bool
  | .release _ => true
  | _ => false

def isExecEv : Ev → Bool
  | .exec _ => true
  | _ => false

def isCommitEv : Ev → Bool
  | .commit => true
  | _ => false

def isRollbackEv : Ev → Bool
  | .rollback => true
  | _ => false

def isReleaseOpen : Ev → Bool
  | .release true => true
  | _ => false

def countAcq (evs : List Ev) : Nat := evs.countP isAcquire
def countRel (evs : List Ev) : Nat := evs.countP isRel

/-- True when, scanning forward, a rollback occurs strictly before the first
release. -/
def rollbackPrecedesRelease : List Ev → Bool
  | [] => false
  | .rollback :: _ => true
  | .release _ :: _ => false
  | _ :: r => rollbackPrecedesRelease r

/-- Trace reading of claim C2: whenever a statement was executed and never
committed, the handler rolled back before releasing and did not hand the pool
a connection with an open transaction. -/
def claimC2holds (r : HOut) : Bool :=
  if r.events.any isExecEv && !(r.events.any isCommitEv) then
    rollbackPrecedesRelease r.events && !(r.events.any isReleaseOpen)
  else true

/-- The trace ends with the except-block rollback followed by the `finally`
release of a transaction-free connection. -/
def endsWithRollbackRelease (evs : List Ev) : Bool :=
  match evs.reverse with
  | Ev.release false :: Ev.rollback :: _ => true
  | _ => false

/-- Amended claim C2, per handler result: every storage-failure (JSON 500)
response was produced by rollback-then-release, and every not-found early
return released without a rollback, with the transaction still open. -/
def mutatingDiscipline (r : HOut) : Prop :=
  (r.result = .resp err500 500 → endsWithRollbackRelease r.events = true) ∧
  (r.result = .resp notFoundJson 404 →
      r.events.any isRollbackEv = false ∧ r.events.any isReleaseOpen = true)

/-- Amended claim C3, per handler result: once the connection was acquired, no
raw exception escapes — the outcome is a handler-built response. -/
def normalizedAfterAcquire (r : HOut) : Prop :=
  r.events.any isAcquire = true → isUncaught r.result = false

/- Concrete states for witnesses and counterexamples. -/

def db0 : DbState :=
  { tableExists := true, columns := todosColumns, rows := [], nextId := 1, now := 0 }

def row1 : Todo :=
  { id := 1, title := Json.str "A", completed := Json.bool false,
    created_at := 0, updated_at := 0 }

def db1 : DbState :=
  { tableExists := true, columns := todosColumns, rows := [row1], nextId := 2, now := 5 }

def dbEmpty : DbState :=
  { tableExists := false, columns := [], rows := [], nextId := 1, now := 0 }

def s0 : Db2State :=
  { schemaNS := false, tableExists := false, columns := [], rows := [] }

/- Helper lemmas -/

theorem buildUpdates_obj (fields : List (String × Json)) :
    buildUpdates (.obj fields) = .ok (jLookup fields "title", jLookup fields "completed") := by
  unfold buildUpdates jLookup
  cases h1 : fields.find? (fun p => p.1 == "title") <;>
    cases h2 : fields.find? (fun p => p.1 == "completed") <;>
      simp [Json.hasMember, Json.subscript, Except.map, h1, h2]

theorem find?_update_rows (i : Nat) (t t' : Todo) (h' : t'.id = t.id) (rows : List Todo)
    (h : rows.find? (fun r => r.id == i) = some t) :
    (rows.map (fun r => if r.id == i then t' else r)).find? (fun r => r.id == i) = some t' := by
  have hpt : (t.id == i) = true := by
    have := List.find?_some h
    simpa using this
  have hcomp : ((fun r => r.id == i) ∘ (fun r : Todo => if r.id == i then t' else r)) =
      (fun r : Todo => r.id == i) := by
    funext r
    by_cases hr : (r.id == i) = true
    · simp only [Function.comp, hr, if_true, if_pos rfl]
      rw [h']
      exact hpt
    · simp [Function.comp, hr]
  rw [List.find?_map, hcomp, h]
  simp only [Option.map_some']
  rw [if_pos hpt]

theorem update_todo_obj_ok (db : DbState) (i : Nat) (fields : List (String × Json)) (t : Todo)
    (hT : db.tableExists = true) (hFind : sqlSelectById i db = some t) :
    update_todo true i (some (.obj fields)) noFaults db =
      { result := .resp (todoJson { t with
            title := (jLookup fields "title").getD t.title,
            completed := (jLookup fields "completed").getD t.completed,
            updated_at := db.now }) 200,
        events := [Ev.acquire, Ev.exec Stmt.selectIdOnly, Ev.exec Stmt.updateT,
                   Ev.commit, Ev.release false],
        db := { db with rows := db.rows.map (fun r =>
            if r.id == i then { t with
              title := (jLookup fields "title").getD t.title,
              completed := (jLookup fields "completed").getD t.completed,
              updated_at := db.now } else r) } } := by
  have hFind' : db.rows.find? (fun r => r.id == i) = some t := hFind
  simp [update_todo, noFaults, hT, sqlSelectById, hFind', buildUpdates_obj,
    sqlUpdateById, jsonifyOpt]

/- Claim theorems -/

/-- Claim C1 (code bug in the health probe): on the path where `getconn`
succeeds and `SELECT 1` then raises, /health acquires a connection and never
releases it — `return_db_conn(conn)` (app.py line 201) runs only on the
success path, not in a `finally`, contradicting the code's own docstrings for
get_db_conn / return_db_conn.  Every CRUD handler, by contrast, releases
exactly as many connections as it acquires on every path. -/
theorem C1_health_connection_leak :
    (health "dev" true faultS1 db0).events = [Ev.acquire] ∧
    countAcq (health "dev" true faultS1 db0).events = 1 ∧
    countRel (health "dev" true faultS1 db0).events = 0 ∧
    (health "dev" true faultS1 db0).result = .resp (healthBody "dev" false) 503 ∧
    (∀ p ft db, countAcq (get_todos p ft db).events = countRel (get_todos p ft db).events) ∧
    (∀ p b ft db, countAcq (create_todo p b ft db).events = countRel (create_todo p b ft db).events) ∧
    (∀ p i ft db, countAcq (get_todo p i ft db).events = countRel (get_todo p i ft db).events) ∧
    (∀ p i b ft db, countAcq (update_todo p i b ft db).events = countRel (update_todo p i b ft db).events) ∧
    (∀ p i ft db, countAcq (delete_todo p i ft db).events = countRel (delete_todo p i ft db).events) := by
  refine ⟨rfl, rfl, rfl, rfl, ?_, ?_, ?_, ?_, ?_⟩
  · intro p ft db
    unfold get_todos
    repeat' split
    all_goals rfl
  · intro p b ft db
    unfold create_todo
    repeat' split
    all_goals rfl
  · intro p i ft db
    unfold get_todo
    repeat' split
    all_goals rfl
  · intro p i b ft db
    unfold update_todo
    repeat' split
    all_goals rfl
  · intro p i ft db
    unfold delete_todo
    repeat' split
    all_goals rfl

/-- Claim C2, counterexample: DELETE on a nonexistent id executes the DELETE
statement, returns 404 without commit and without any rollback, and the
`finally` hands the pool a connection whose transaction is still open (the
pool's putconn, not the handler, resets it). -/
theorem C2_counterexample :
    claimC2holds (delete_todo true 1 noFaults db0) = false ∧
    (delete_todo true 1 noFaults db0).result = .resp notFoundJson 404 ∧
    (delete_todo true 1 noFaults db0).events =
      [Ev.acquire, Ev.exec .deleteT, Ev.release true] := ⟨rfl, rfl, rfl⟩

/-- Claim C2 as amended: in every mutating handler, every storage-failure
(JSON 500) outcome ends with rollback followed by the release of a
transaction-free connection; the not-found early exits instead release
without a rollback, with the transaction left open for the pool to reset. -/
theorem C2_rollback_discipline_amended :
    (∀ p b ft db, mutatingDiscipline (create_todo p b ft db)) ∧
    (∀ p i b ft db, mutatingDiscipline (update_todo p i b ft db)) ∧
    (∀ p i ft db, mutatingDiscipline (delete_todo p i ft db)) := by
  refine ⟨?_, ?_, ?_⟩
  · intro p b ft db
    unfold mutatingDiscipline create_todo
    repeat' split
    all_goals
      simp_all [endsWithRollbackRelease, err500, notFoundJson, titleReqJson, errJson,
        isRollbackEv, isReleaseOpen]
  · intro p i b ft db
    unfold mutatingDiscipline update_todo
    repeat' split
    all_goals
      simp_all [endsWithRollbackRelease, err500, notFoundJson, titleReqJson, errJson,
        isRollbackEv, isReleaseOpen]
  · intro p i ft db
    unfold mutatingDiscipline delete_todo
    repeat' split
    all_goals
      simp_all [endsWithRollbackRelease, err500, notFoundJson, titleReqJson, errJson,
        isRollbackEv, isReleaseOpen]

/-- Witness for C2's amended theorem at a concrete input: a commit failure
during PUT yields the JSON 500 and a trace ending rollback-then-release. -/
theorem C2_witness :
    (update_todo true 1 (some (.obj [])) faultCm db1).result = .resp err500 500 ∧
    endsWithRollbackRelease (update_todo true 1 (some (.obj [])) faultCm db1).events = true := by
  refine ⟨rfl, ?_⟩
  exact (C2_rollback_discipline_amended.2.1 true 1 (some (.obj [])) faultCm db1).1 rfl

/-- Claim C3, counterexample: a pool-acquisition failure on GET /api/todos
(line 238 sits before the `try`) escapes the handler as a raw exception — it
is not normalized into a JSON 5xx response. -/
theorem C3_counterexample :
    (get_todos true faultAcq db0).result = .uncaught .poolExhausted ∧
    isJsonResp (get_todos true faultAcq db0).result = false ∧
    isUncaught (get_todos true faultAcq db0).result = true := ⟨rfl, rfl, rfl⟩

/-- Claim C3 as amended: in every CRUD handler, once the connection has been
acquired no raw exception escapes, and every data-layer error raised after
the acquisition — statement failure, missing table, parameter-evaluation
TypeError, commit failure — is caught and answered with the normalized JSON
error body and status 500; the pool acquisition itself, which sits before
the `try`, escapes every CRUD handler raw, both when the pool is absent
(AttributeError) and when getconn raises (pool exhausted). -/
theorem C3_normalized_after_acquire :
    (∀ p ft db, normalizedAfterAcquire (get_todos p ft db)) ∧
    (∀ p b ft db, normalizedAfterAcquire (create_todo p b ft db)) ∧
    (∀ p i ft db, normalizedAfterAcquire (get_todo p i ft db)) ∧
    (∀ p i b ft db, normalizedAfterAcquire (update_todo p i b ft db)) ∧
    (∀ p i ft db, normalizedAfterAcquire (delete_todo p i ft db)) ∧
    (∀ ft db, ft.acq = false → (ft.s1 || !db.tableExists) = true →
        (get_todos true ft db).result = .resp err500 500 ∧
        (get_todos true ft db).events.any isAcquire = true) ∧
    (∀ i ft db, ft.acq = false → (ft.s1 || !db.tableExists) = true →
        (get_todo true i ft db).result = .resp err500 500 ∧
        (get_todo true i ft db).events.any isAcquire = true) ∧
    (∀ ft db data, titleCheckFails data = .ok false → ft.acq = false →
        ((∃ e, extractCreateParams data = .error e) ∨
          (ft.s1 || !db.tableExists) = true ∨ ft.cm = true) →
        (create_todo true (some data) ft db).result = .resp err500 500 ∧
        (create_todo true (some data) ft db).events.any isAcquire = true) ∧
    (∀ i ft db data, ft.acq = false →
        ((ft.s1 || !db.tableExists) = true ∨
          (db.tableExists = true ∧ ft.s1 = false ∧
            (∃ t, sqlSelectById i db = some t) ∧
            ((∃ e, buildUpdates data = .error e) ∨ ft.s2 = true ∨ ft.cm = true))) →
        (update_todo true i (some data) ft db).result = .resp err500 500 ∧
        (update_todo true i (some data) ft db).events.any isAcquire = true) ∧
    (∀ i ft db, ft.acq = false →
        ((ft.s1 || !db.tableExists) = true ∨
          (db.tableExists = true ∧ ft.s1 = false ∧
            (∃ n, (sqlDeleteById i db).1 = some n) ∧ ft.cm = true)) →
        (delete_todo true i ft db).result = .resp err500 500 ∧
        (delete_todo true i ft db).events.any isAcquire = true) ∧
    (∀ ft db, (get_todos false ft db).result = .uncaught .attrError ∧
        (ft.acq = true → (get_todos true ft db).result = .uncaught .poolExhausted)) ∧
    (∀ i ft db, (get_todo false i ft db).result = .uncaught .attrError ∧
        (ft.acq = true → (get_todo true i ft db).result = .uncaught .poolExhausted)) ∧
    (∀ ft db data, titleCheckFails data = .ok false →
        (create_todo false (some data) ft db).result = .uncaught .attrError ∧
        (ft.acq = true →
          (create_todo true (some data) ft db).result = .uncaught .poolExhausted)) ∧
    (∀ i ft db data, (update_todo false i (some data) ft db).result = .uncaught .attrError ∧
        (ft.acq = true →
          (update_todo true i (some data) ft db).result = .uncaught .poolExhausted)) ∧
    (∀ i ft db, (delete_todo false i ft db).result = .uncaught .attrError ∧
        (ft.acq = true → (delete_todo true i ft db).result = .uncaught .poolExhausted)) := by
  refine ⟨?_, ?_, ?_, ?_, ?_, ?_, ?_, ?_, ?_, ?_, ?_, ?_, ?_, ?_, ?_⟩
  · intro p ft db
    unfold normalizedAfterAcquire get_todos
    repeat' split
    all_goals simp [isAcquire, isUncaught]
  · intro p b ft db
    unfold normalizedAfterAcquire create_todo
    repeat' split
    all_goals simp [isAcquire, isUncaught]
  · intro p i ft db
    unfold normalizedAfterAcquire get_todo
    repeat' split
    all_goals simp [isAcquire, isUncaught]
  · intro p i b ft db
    unfold normalizedAfterAcquire update_todo
    repeat' split
    all_goals simp [isAcquire, isUncaught]
  · intro p i ft db
    unfold normalizedAfterAcquire delete_todo
    repeat' split
    all_goals simp [isAcquire, isUncaught]
  · intro ft db h1 h2
    simp [get_todos, h1, h2, isAcquire]
  · intro i ft db h1 h2
    simp [get_todo, h1, h2, isAcquire]
  · intro ft db data hcheck hacq herr
    rcases herr with ⟨e, he⟩ | h2 | hcm
    · simp [create_todo, hcheck, hacq, he, isAcquire]
    · cases hex : extractCreateParams data with
      | error e => simp [create_todo, hcheck, hacq, hex, isAcquire]
      | ok pr =>
        obtain ⟨tv, cv⟩ := pr
        simp [create_todo, hcheck, hacq, hex, h2, isAcquire]
    · cases hex : extractCreateParams data with
      | error e => simp [create_todo, hcheck, hacq, hex, isAcquire]
      | ok pr =>
        obtain ⟨tv, cv⟩ := pr
        by_cases h3 : (ft.s1 || !db.tableExists) = true
        · simp [create_todo, hcheck, hacq, hex, h3, isAcquire]
        · simp [create_todo, hcheck, hacq, hex, h3, hcm, isAcquire]
  · intro i ft db data hacq herr
    rcases herr with h2 | ⟨hT, hs1, ⟨t, hfind⟩, hrest⟩
    · simp [update_todo, hacq, h2, isAcquire]
    · have h2' : (ft.s1 || !db.tableExists) = false := by simp [hs1, hT]
      rcases hrest with ⟨e, hbu⟩ | hs2 | hcm
      · simp [update_todo, hacq, h2', hfind, hbu, isAcquire]
      · cases hbu2 : buildUpdates data with
        | error e => simp [update_todo, hacq, h2', hfind, hbu2, isAcquire]
        | ok pr =>
          obtain ⟨nt, nc⟩ := pr
          simp [update_todo, hacq, h2', hfind, hbu2, hs2, isAcquire]
      · cases hbu2 : buildUpdates data with
        | error e => simp [update_todo, hacq, h2', hfind, hbu2, isAcquire]
        | ok pr =>
          obtain ⟨nt, nc⟩ := pr
          by_cases h4 : ft.s2 = true
          · simp [update_todo, hacq, h2', hfind, hbu2, h4, isAcquire]
          · simp [update_todo, hacq, h2', hfind, hbu2, h4, hcm, isAcquire]
  · intro i ft db hacq herr
    rcases herr with h2 | ⟨hT, hs1, ⟨n, hdel⟩, hcm⟩
    · simp [delete_todo, hacq, h2, isAcquire]
    · have h2' : (ft.s1 || !db.tableExists) = false := by simp [hs1, hT]
      simp [delete_todo, hacq, h2', hdel, hcm, isAcquire]
  · intro ft db
    exact ⟨rfl, fun h => by simp [get_todos, h]⟩
  · intro i ft db
    exact ⟨rfl, fun h => by simp [get_todo, h]⟩
  · intro ft db data hcheck
    refine ⟨?_, fun h => ?_⟩
    · simp [create_todo, hcheck]
    · simp [create_todo, hcheck, h]
  · intro i ft db data
    exact ⟨rfl, fun h => by simp [update_todo, h]⟩
  · intro i ft db
    exact ⟨rfl, fun h => by simp [delete_todo, h]⟩

/-- Witness for C3's amended theorem: a statement failure on GET /api/todos
after a successful acquisition is answered with the normalized JSON error
body and status 500 (not a raw exception), while the pool-absent acquisition
escapes the same handler raw. -/
theorem C3_witness :
    (get_todos true faultS1 db0).events.any isAcquire = true ∧
    (get_todos true faultS1 db0).result = .resp err500 500 ∧
    isUncaught (get_todos true faultS1 db0).result = false ∧
    (get_todos false noFaults db0).result = .uncaught .attrError := by
  refine ⟨rfl, ?_, ?_, ?_⟩
  · exact (C3_normalized_after_acquire.2.2.2.2.2.1 faultS1 db0 rfl rfl).1
  · exact C3_normalized_after_acquire.1 true faultS1 db0 rfl
  · exact (C3_normalized_after_acquire.2.2.2.2.2.2.2.2.2.2.1 noFaults db0).1

/-- Claim C4 (confirmed): updating an existing record first runs the distinct
existence query, then updates exactly the payload-supplied fields — absent
fields keep their stored value — and always refreshes updated_at; the
response and the stored row agree on the result. -/
theorem C4_partial_update (db : DbState) (i : Nat) (fields : List (String × Json)) (t : Todo)
    (hT : db.tableExists = true) (hFind : sqlSelectById i db = some t) :
    (update_todo true i (some (.obj fields)) noFaults db).result =
      .resp (todoJson { t with title := (jLookup fields "title").getD t.title,
                               completed := (jLookup fields "completed").getD t.completed,
                               updated_at := db.now }) 200 ∧
    sqlSelectById i (update_todo true i (some (.obj fields)) noFaults db).db =
      some { t with title := (jLookup fields "title").getD t.title,
                    completed := (jLookup fields "completed").getD t.completed,
                    updated_at := db.now } ∧
    (update_todo true i (some (.obj fields)) noFaults db).events =
      [Ev.acquire, Ev.exec Stmt.selectIdOnly, Ev.exec Stmt.updateT,
       Ev.commit, Ev.release false] := by
  have h := update_todo_obj_ok db i fields t hT hFind
  refine ⟨by rw [h], ?_, by rw [h]⟩
  rw [h]
  exact find?_update_rows i t
    { t with title := (jLookup fields "title").getD t.title,
             completed := (jLookup fields "completed").getD t.completed,
             updated_at := db.now } rfl db.rows hFind

/-- Witness for C4 at the spec's own example: updating (title "A",
completed false) with (completed true) keeps the title, flips completed and
advances updated_at. -/
theorem C4_witness :
    db1.tableExists = true ∧ sqlSelectById 1 db1 = some row1 ∧
    (update_todo true 1 (some (.obj [("completed", Json.bool true)])) noFaults db1).result =
      .resp (todoJson { id := 1, title := Json.str "A", completed := Json.bool true,
                        created_at := 0, updated_at := 5 }) 200 :=
  ⟨rfl, rfl, (C4_partial_update db1 1 [("completed", Json.bool true)] row1 rfl rfl).1⟩

/-- Claim C5, counterexample: a POST whose body is the JSON value `true`
lacks the required title, yet the handler raises TypeError inside
`'title' not in data` and the wire response is the framework's 500 — not a
4xx — though still with no database statement executed. -/
theorem C5_counterexample :
    (create_todo true (some (.bool true)) noFaults db0).result = .uncaught .typeError ∧
    boundaryStatus (create_todo true (some (.bool true)) noFaults db0).result = 500 ∧
    (create_todo true (some (.bool true)) noFaults db0).events = [] := ⟨rfl, rfl, rfl⟩

/-- Claim C5 as amended: unparseable bodies are rejected by body parsing with
a 4xx before any handler code; POST bodies that are falsy or are containers
without a title entry get the handler's 400; both run no database statement
and leave the store unchanged.  A POST body that is a truthy non-container
(true, nonzero number) instead raises TypeError, surfacing as a framework
500 — still before any pool acquisition or database statement. -/
theorem C5_client_errors_amended :
    (∀ p ft db, (create_todo p none ft db).result = .badRequest400 ∧
        (create_todo p none ft db).events = [] ∧ (create_todo p none ft db).db = db) ∧
    (∀ p i ft db, (update_todo p i none ft db).result = .badRequest400 ∧
        (update_todo p i none ft db).events = [] ∧ (update_todo p i none ft db).db = db) ∧
    (∀ p ft db data, titleCheckFails data = .ok true →
        (create_todo p (some data) ft db).result = .resp titleReqJson 400 ∧
        (create_todo p (some data) ft db).events = [] ∧
        (create_todo p (some data) ft db).db = db) ∧
    (∀ p ft db data, titleCheckFails data = .error .typeError →
        (create_todo p (some data) ft db).result = .uncaught .typeError ∧
        (create_todo p (some data) ft db).events = [] ∧
        (create_todo p (some data) ft db).db = db) := by
  refine ⟨?_, ?_, ?_, ?_⟩
  · intro p ft db
    exact ⟨rfl, rfl, rfl⟩
  · intro p i ft db
    exact ⟨rfl, rfl, rfl⟩
  · intro p ft db data h
    simp [create_todo, h]
  · intro p ft db data h
    simp [create_todo, h]

/-- Witness for C5's amended theorem: a POST body with no title entry is
answered 400 with no pool or database activity. -/
theorem C5_witness :
    titleCheckFails (.obj [("completed", Json.bool true)]) = .ok true ∧
    (create_todo true (some (.obj [("completed", Json.bool true)])) noFaults db0).result =
      .resp titleReqJson 400 := by
  refine ⟨rfl, ?_⟩
  exact (C5_client_errors_amended.2.2.1 true noFaults db0
    (.obj [("completed", Json.bool true)]) rfl).1

/-- Claim C6 (confirmed): /health never raises; for every probe outcome it
answers with the full five-field JSON body, and it is 200 / "healthy" /
database "healthy" exactly when the SELECT 1 round trip succeeds (pool
present, acquisition and query both succeed), 503 / "degraded" /
database "unhealthy" on every failure path. -/
theorem C6_health_never_raises (env : String) (p : Bool) (ft : Faults) (db : DbState) :
    ∃ b : Bool,
      (health env p ft db).result =
        .resp (.obj [("status", .str (if b then "healthy" else "degraded")),
                     ("environment", .str env),
                     ("version", .str "2.0.0"),
                     ("storage", .str "postgresql"),
                     ("database", .str (if b then "healthy" else "unhealthy"))])
          (if b then 200 else 503) ∧
      (b = true ↔ (p = true ∧ ft.acq = false ∧ ft.s1 = false)) := by
  rcases ft with ⟨a, s1, s2, cm⟩
  cases p <;> cases a <;> cases s1 <;>
    first
      | exact ⟨true, rfl, by simp⟩
      | exact ⟨false, rfl, by simp⟩

/-- Witness for C6 at a concrete healthy probe. -/
theorem C6_witness :
    ∃ b : Bool,
      (health "dev" true noFaults db0).result =
        .resp (.obj [("status", .str (if b then "healthy" else "degraded")),
                     ("environment", .str "dev"),
                     ("version", .str "2.0.0"),
                     ("storage", .str "postgresql"),
                     ("database", .str (if b then "healthy" else "unhealthy"))])
          (if b then 200 else 503) ∧
      (b = true ↔ (true = true ∧ noFaults.acq = false ∧ noFaults.s1 = false)) :=
  C6_health_never_raises "dev" true noFaults db0

/-- Claim C7, counterexample: a POST whose body is the JSON number 7 lacks
the title field, yet the response is the framework 500 (TypeError from
`'title' not in data`), not 400 — although still before any pool acquisition
and with no record created. -/
theorem C7_counterexample :
    (create_todo true (some (.num 7)) noFaults db0).result = .uncaught .typeError ∧
    boundaryStatus (create_todo true (some (.num 7)) noFaults db0).result = 500 ∧
    (create_todo true (some (.num 7)) noFaults db0).events = [] ∧
    (create_todo true (some (.num 7)) noFaults db0).db = db0 := ⟨rfl, rfl, rfl, rfl⟩

/-- Claim C7 as amended: a POST whose body is absent/unparseable is rejected
by body parsing with a 4xx; one whose body is falsy or a container lacking a
title entry gets the handler's 400 — in both cases before any pool
acquisition or database statement, and no record is created.  A truthy
non-container body instead raises, surfacing as a framework 500, likewise
before any pool acquisition and creating no record. -/
theorem C7_missing_title_amended :
    (∀ p ft db, (create_todo p none ft db).result = .badRequest400 ∧
        (create_todo p none ft db).events = [] ∧ (create_todo p none ft db).db = db) ∧
    (∀ p ft db data, titleCheckFails data = .ok true →
        (create_todo p (some data) ft db).result = .resp titleReqJson 400 ∧
        (create_todo p (some data) ft db).events = [] ∧
        (create_todo p (some data) ft db).db = db) ∧
    (∀ p ft db data e, titleCheckFails data = .error e →
        (create_todo p (some data) ft db).result = .uncaught e ∧
        (create_todo p (some data) ft db).events = [] ∧
        (create_todo p (some data) ft db).db = db) := by
  refine ⟨?_, ?_, ?_⟩
  · intro p ft db
    exact ⟨rfl, rfl, rfl⟩
  · intro p ft db data h
    simp [create_todo, h]
  · intro p ft db data e h
    simp [create_todo, h]

/-- Witness for C7's amended theorem: POST with the empty-object body gets
400 with no pool acquisition, no statement, no new record. -/
theorem C7_witness :
    titleCheckFails (.obj []) = .ok true ∧
    (create_todo true (some (.obj [])) noFaults db0).result = .resp titleReqJson 400 ∧
    (create_todo true (some (.obj [])) noFaults db0).events = [] ∧
    (create_todo true (some (.obj [])) noFaults db0).db = db0 := by
  refine ⟨rfl, ?_, ?_, ?_⟩
  · exact (C7_missing_title_amended.2.1 true noFaults db0 (.obj []) rfl).1
  · exact (C7_missing_title_amended.2.1 true noFaults db0 (.obj []) rfl).2.1
  · exact (C7_missing_title_amended.2.1 true noFaults db0 (.obj []) rfl).2.2

/-- Claim C10 (confirmed): PUT with the empty JSON object on an existing
record succeeds with 200, refreshes only updated_at, and leaves id, title,
completed and created_at unchanged — an empty partial update is accepted. -/
theorem C10_empty_update (db : DbState) (i : Nat) (t : Todo)
    (hT : db.tableExists = true) (hFind : sqlSelectById i db = some t) :
    (update_todo true i (some (.obj [])) noFaults db).result =
      .resp (todoJson { t with updated_at := db.now }) 200 ∧
    sqlSelectById i (update_todo true i (some (.obj [])) noFaults db).db =
      some { t with updated_at := db.now } ∧
    ({ t with updated_at := db.now } : Todo).id = t.id ∧
    ({ t with updated_at := db.now } : Todo).title = t.title ∧
    ({ t with updated_at := db.now } : Todo).completed = t.completed ∧
    ({ t with updated_at := db.now } : Todo).created_at = t.created_at := by
  have h := update_todo_obj_ok db i [] t hT hFind
  refine ⟨by rw [h]; rfl, ?_, rfl, rfl, rfl, rfl⟩
  rw [h]
  exact find?_update_rows i t { t with updated_at := db.now } rfl db.rows hFind

/-- Witness for C10 at a concrete record. -/
theorem C10_witness :
    db1.tableExists = true ∧ sqlSelectById 1 db1 = some row1 ∧
    (update_todo true 1 (some (.obj [])) noFaults db1).result =
      .resp (todoJson { id := 1, title := Json.str "A", completed := Json.bool false,
                        created_at := 0, updated_at := 5 }) 200 :=
  ⟨rfl, rfl, (C10_empty_update db1 1 row1 rfl rfl).1⟩

/-- Claim C8 (confirmed): if pool creation fails at startup, the module-level
try/except absorbs the exception, the process keeps serving — the health
endpoint answers 503 "degraded" — and every database operation fails with a
5xx-class outcome; if instead schema initialization fails, the pool stays up
(db_pool is assigned before init_schema runs), the table is still missing,
and every database operation likewise fails 5xx until fixed externally. -/
theorem C8_startup_resilience (ft g : Faults) (db : DbState) (env : String) (i : Nat)
    (data : Json) (fields : List (String × Json)) (v : Json)
    (hv : jLookup fields "title" = some v) :
    (startup true ft db).poolUp = false ∧
    (startup true ft db).db = db ∧
    (health env false g db).result = .resp (healthBody env false) 503 ∧
    boundaryStatus (get_todos false g db).result = 500 ∧
    isUncaught (get_todos false g db).result = true ∧
    boundaryStatus (get_todo false i g db).result = 500 ∧
    boundaryStatus (delete_todo false i g db).result = 500 ∧
    boundaryStatus (create_todo false (some (.obj fields)) g db).result = 500 ∧
    boundaryStatus (update_todo false i (some data) g db).result = 500 ∧
    (db.tableExists = false →
      (startup false faultS1 db).poolUp = true ∧
      (startup false faultS1 db).db = db ∧
      boundaryStatus (get_todos true g db).result = 500 ∧
      boundaryStatus (get_todo true i g db).result = 500 ∧
      boundaryStatus (delete_todo true i g db).result = 500 ∧
      boundaryStatus (create_todo true (some (.obj fields)) g db).result = 500 ∧
      boundaryStatus (update_todo true i (some data) g db).result = 500) := by
  obtain ⟨pr, hpr, -⟩ := Option.map_eq_some'.mp hv
  have hcheck : titleCheckFails (.obj fields) = .ok false := by
    cases fields with
    | nil => simp at hpr
    | cons f fs =>
      simp [titleCheckFails, Json.truthy, Json.hasMember, hpr]
  refine ⟨rfl, rfl, rfl, rfl, rfl, rfl, rfl, ?_, rfl, ?_⟩
  · simp [create_todo, hcheck, boundaryStatus]
  · intro hdb
    rcases g with ⟨ga, gs1, gs2, gcm⟩
    refine ⟨rfl, rfl, ?_, ?_, ?_, ?_, ?_⟩
    · cases ga <;> simp [get_todos, boundaryStatus, hdb]
    · cases ga <;> simp [get_todo, boundaryStatus, hdb]
    · cases ga <;> simp [delete_todo, boundaryStatus, hdb]
    · cases ga <;>
        cases hex : extractCreateParams (Json.obj fields) <;>
          simp [create_todo, boundaryStatus, hdb, hcheck, hex]
    · cases ga <;> simp [update_todo, boundaryStatus, hdb]

/-- Witness for C8 at concrete inputs: pool-creation failure leaves the pool
down with POST failing 5xx; schema-init failure leaves the pool up with the
table absent and GET /api/todos failing 5xx. -/
theorem C8_witness :
    jLookup [("title", Json.str "x")] "title" = some (Json.str "x") ∧
    dbEmpty.tableExists = false ∧
    (startup true noFaults dbEmpty).poolUp = false ∧
    boundaryStatus (create_todo false (some (.obj [("title", Json.str "x")]))
      noFaults dbEmpty).result = 500 ∧
    (startup false faultS1 dbEmpty).poolUp = true ∧
    boundaryStatus (get_todos true noFaults dbEmpty).result = 500 := by
  have h := C8_startup_resilience noFaults noFaults dbEmpty "dev" 1 Json.null
    [("title", Json.str "x")] (Json.str "x") rfl
  exact ⟨rfl, rfl, h.1, h.2.2.2.2.2.2.2.1, (h.2.2.2.2.2.2.2.2.2 rfl).1,
    (h.2.2.2.2.2.2.2.2.2 rfl).2.2.1⟩

/-- Claim C9, counterexample: in the db.py variant, a failure right after
connecting (CREATE SCHEMA raises) leaves the connection neither closed nor
returned — init_db has no finally and its except only logs and re-raises. -/
theorem C9_counterexample :
    (init_db faultS1 s0).result = .error .storage ∧
    (init_db faultS1 s0).events = [Ev2.connect] ∧
    (init_db faultS1 s0).events.any isClose = false := ⟨rfl, rfl, rfl⟩

/-- Claim C9 as amended: schema initialization is idempotent in both variants
(a second run changes neither table structure nor rows); app.py's init_schema
returns its pool connection on success and on failure alike, while db.py's
init_db closes its direct connection exactly on success — never on failure. -/
theorem C9_schema_init_amended :
    (∀ db : DbState,
      (init_schema noFaults ((init_schema noFaults db).db)).db = (init_schema noFaults db).db) ∧
    (∀ db : DbState, db.tableExists = true → (init_schema noFaults db).db = db) ∧
    (∀ ft db, countAcq (init_schema ft db).events = countRel (init_schema ft db).events) ∧
    (∀ s : Db2State,
      (init_db noFaults ((init_db noFaults s).db)).db = (init_db noFaults s).db) ∧
    (∀ s : Db2State, s.schemaNS = true → s.tableExists = true →
      (init_db noFaults s).db = s) ∧
    (∀ ft s, ((init_db ft s).events.any isClose = true) ↔ (init_db ft s).result = .ok ()) := by
  refine ⟨?_, ?_, ?_, ?_, ?_, ?_⟩
  · intro db
    by_cases h : db.tableExists <;>
      simp [init_schema, noFaults, createTableIfNotExists, h]
  · intro db h
    simp [init_schema, noFaults, createTableIfNotExists, h]
  · intro ft db
    unfold init_schema
    repeat' split
    all_goals rfl
  · intro s
    by_cases h : s.tableExists <;>
      simp [init_db, noFaults, createTable2, createSchemaNS, h]
  · intro s h1 h2
    rcases s with ⟨ns, te, cols, rows⟩
    simp_all [init_db, noFaults, createTable2, createSchemaNS]
  · intro ft s
    rcases ft with ⟨a, s1, s2, cm⟩
    cases a <;> cases s1 <;> cases s2 <;> cases cm <;> simp [init_db, isClose]

/-- Witness for C9's amended theorem: a second run on the initialized state
is a no-op, and the db.py success run does close its connection. -/
theorem C9_witness :
    db0.tableExists = true ∧ (init_schema noFaults db0).db = db0 ∧
    ((init_db noFaults s0).events.any isClose = true) ∧
    (init_db noFaults s0).result = .ok () := by
  refine ⟨rfl, C9_schema_init_amended.2.1 db0 rfl, ?_, rfl⟩
  exact (C9_schema_init_amended.2.2.2.2.2 noFaults s0).mpr rfl

end TodoApi
